import Mathlib

/-!
# CozyClean backend — verification of the sync-upload transaction protocol
  and the token-based identity contract

Shallow embedding of the CozyClean backend (FastAPI + SQLAlchemy) in Lean 4.

* `app/core/config.py`   → `Settings`, `settings`
* `app/core/security.py` → `create_access_token`, `encrypt_phone` (Base64 mock)
* `app/api/deps.py`      → `oauth2_scheme`, `get_current_user`, `authenticate`
* `app/models/base.py`   → `Users`, `SyncSessionLogs`, `SyncPhotoActions`, `DB`
* `app/api/v1/sync.py`   → `sync_upload`
* `app/api/v1/auth.py`   → `login` (split into query / commit phases so that
  interleavings of two concurrent logins can be stated)

Modelling conventions:
* user ids (Python `uuid.UUID`) are opaque identifiers, modelled as `Nat`;
  `str(uid)` is `toString`, `UUID(s)` is `UUID_parse` — a kernel-reducible
  spelling of `String.toNat?` (the two are proved equal below) that fails
  exactly on strings that are not a valid id;
* wall-clock instants and time deltas are seconds as `Nat` (python-jose
  truncates datetimes to integer seconds when embedding the `exp` claim);
* a JWT is modelled as its claim set together with the key it was signed
  with: `jose.jwt.decode` succeeds only when the verification key equals the
  signing key (HS256 is a symmetric scheme), which models signature checking
  without embedding HMAC itself;
* the relational store is a `DB` value; SQLAlchemy `commit` is modelled
  explicitly: it enforces the declared constraints (primary-key uniqueness of
  `session_id`, uniqueness of `phone_number`, foreign keys) and may
  additionally fail for external reasons (connectivity loss), modelled by a
  boolean oracle; on failure the exception text is an oracle string (the
  `str(e)` of the raised exception).
-/

namespace CozyClean

/-- User ids: opaque, globally unique identifiers (`uuid.UUID` in the code). -/
abbrev UUID := Nat

/-!
## `app/core/config.py`
-/

/-- The pydantic-settings `Settings` class: the fields the core reads.
`ACCESS_TOKEN_EXPIRE_MINUTES` is the default token TTL in minutes. -/
structure Settings where
  SECRET_KEY : String
  ALGORITHM : String
  ACCESS_TOKEN_EXPIRE_MINUTES : Nat
deriving Repr, DecidableEq

/-- `get_settings()` singleton with the defaults from `config.py`. -/
def settings : Settings :=
  { SECRET_KEY := "change-me-to-a-random-secret-key"
    ALGORITHM := "HS256"
    ACCESS_TOKEN_EXPIRE_MINUTES := 1440 }

/-!
## `app/core/security.py` — token codec
-/

/-- A signed JWT: the claim set (`sub`, `exp`) together with the key that
signed it.  `sub := none` models a claim set without a `sub` field. -/
structure Token where
  sub : Option String
  exp : Nat
  key : String
deriving Repr, DecidableEq

/-- Python truthiness of the optional `expires_delta`: `if expires_delta:`
is `False` both for `None` and for a zero `timedelta` (whose `__bool__`
checks its components against zero). -/
def timedeltaTruthy : Option Nat → Bool
  | none => false
  | some d => d != 0

/-- `create_access_token(data, expires_delta)`: copies the payload (here: its
`sub` field), adds `exp = now + expires_delta` when `if expires_delta:` is
truthy, and `exp = now + timedelta(minutes=settings.ACCESS_TOKEN_EXPIRE_MINUTES)`
otherwise — i.e. the configuration default applies both when no delta is
supplied and when a falsy `timedelta(0)` is supplied — then signs with
`settings.SECRET_KEY`.  `now` is the wall clock in seconds; `expires_delta`
is in seconds. -/
def create_access_token (sub : Option String) (now : Nat)
    (expires_delta : Option Nat) : Token :=
  { sub := sub
    exp :=
      if timedeltaTruthy expires_delta then now + expires_delta.getD 0
      else now + settings.ACCESS_TOKEN_EXPIRE_MINUTES * 60
    key := settings.SECRET_KEY }

/-- The failure modes of `jose.jwt.decode` that the gate can encounter. -/
inductive JoseError where
  | signatureInvalid
  | expiredSignature
deriving Repr, DecidableEq

/-- `jose.jwt.decode(token, key, algorithms)`: verifies the signature, then
the `exp` claim.  python-jose rejects exactly when `exp < now` (zero leeway):
the expiry second itself is still accepted.  On success it returns the claim
set, i.e. the (optional) `sub` value. -/
def jwt_decode (token : Token) (key : String) (now : Nat) :
    Except JoseError (Option String) :=
  if token.key ≠ key then .error .signatureInvalid
  else if token.exp < now then .error .expiredSignature
  else .ok token.sub

/-!
## `app/api/deps.py` — authentication gate
-/

/-- An HTTP error response as raised via `HTTPException`. -/
structure HTTPError where
  status : Nat
  detail : String
  www_authenticate : Option String
deriving Repr, DecidableEq

/-- The single exception object `get_current_user` raises on every failure. -/
def credentials_exception : HTTPError :=
  { status := 401
    detail := "无法验证身份凭证，请重新登录"
    www_authenticate := some "Bearer" }

/-- The error `fastapi.security.OAuth2PasswordBearer` raises (with
`auto_error=True`, the default) when the `Authorization` header is missing or
its scheme is not `bearer`. -/
def notAuthenticatedError : HTTPError :=
  { status := 401
    detail := "Not authenticated"
    www_authenticate := some "Bearer" }

/-- The transport-level `Authorization` header: absent, or a scheme plus a
bearer credential. -/
inductive AuthHeader where
  | missing
  | header (scheme : String) (token : Token)
deriving Repr, DecidableEq

/-- `scheme.lower()`: case-folding of the header scheme, written over the
character list (equal to `String.toLower`, which maps `Char.toLower`). -/
def schemeLower (s : String) : String := String.mk (s.toList.map Char.toLower)

/-- `oauth2_scheme` (an `OAuth2PasswordBearer` instance): extracts the bearer
credential, failing with 401 "Not authenticated" when the header is missing
or the scheme is not `bearer` (case-insensitive). -/
def oauth2_scheme : AuthHeader → Except HTTPError Token
  | .missing => .error notAuthenticatedError
  | .header scheme token =>
    if schemeLower scheme = "bearer" then .ok token
    else .error notAuthenticatedError

/-- `UUID(uid_str)`: parse the textual form of a user id, `none` exactly when
the string is not a valid id (the constructor's `ValueError`).  This is
`String.toNat?` written over the character list (`UUID_parse_eq_toNat` below
proves the two agree); ids being opaque, their textual form is their decimal
numeral. -/
def UUID_parse (s : String) : Option UUID :=
  if s.toList ≠ [] ∧ s.toList.all Char.isDigit then
    some (s.toList.foldl (fun n c => n * 10 + (c.toNat - Char.toNat '0')) 0)
  else none

/-- `get_current_user(token)`: decode the token, read `sub`, parse it as a
user id; any failure raises the one `credentials_exception`. -/
def get_current_user (token : Token) (now : Nat) : Except HTTPError UUID :=
  match jwt_decode token settings.SECRET_KEY now with
  | .error _ => .error credentials_exception
  | .ok none => .error credentials_exception
  | .ok (some uid_str) =>
    match UUID_parse uid_str with
    | none => .error credentials_exception
    | some uid => .ok uid

/-- The authentication gate for a protected route: header extraction by
`oauth2_scheme`, then `get_current_user`. -/
def authenticate (h : AuthHeader) (now : Nat) : Except HTTPError UUID :=
  match oauth2_scheme h with
  | .error e => .error e
  | .ok token => get_current_user token now

/-!
## `app/core/security.py` — phone encryption (Base64 mock)
-/

/-- The standard Base64 alphabet as a list of characters. -/
def base64Alphabet : List Char :=
  "ABCDEFGHIJKLMNOPQRSTUVWXYZabcdefghijklmnopqrstuvwxyz0123456789+/".toList

/-- The Base64 digit for a 6-bit value. -/
def b64Char (n : Nat) : Char := base64Alphabet.getD n 'A'

/-- Standard Base64 encoding of a byte sequence (values < 256), with `=`
padding, as performed by Python's `base64.b64encode`. -/
def b64encodeBytes : List Nat → List Char
  | [] => []
  | [a] =>
    [b64Char (a / 4), b64Char (a % 4 * 16), '=', '=']
  | [a, b] =>
    [b64Char (a / 4), b64Char (a % 4 * 16 + b / 16), b64Char (b % 16 * 4), '=']
  | a :: b :: c :: rest =>
    b64Char (a / 4) :: b64Char (a % 4 * 16 + b / 16) ::
      b64Char (b % 16 * 4 + c / 64) :: b64Char (c % 64) :: b64encodeBytes rest

/-- The UTF-8 byte sequence of one character (`phone.encode("utf-8")`,
per character), computed from the code point. -/
def utf8Bytes (c : Char) : List Nat :=
  let n := c.toNat
  if n < 0x80 then [n]
  else if n < 0x800 then [0xC0 + n / 0x40, 0x80 + n % 0x40]
  else if n < 0x10000 then
    [0xE0 + n / 0x1000, 0x80 + n / 0x40 % 0x40, 0x80 + n % 0x40]
  else
    [0xF0 + n / 0x40000, 0x80 + n / 0x1000 % 0x40,
     0x80 + n / 0x40 % 0x40, 0x80 + n % 0x40]

/-- `encrypt_phone(phone)`: Base64 of the UTF-8 bytes of the phone number
(the repository's mock stand-in for AES-256). -/
def encrypt_phone (phone : String) : String :=
  String.mk (b64encodeBytes (phone.toList.map utf8Bytes).flatten)

/-!
## `app/models/base.py` — ORM rows and the database state
-/

/-- A row of the `users` table.  Timestamps are seconds as `Nat`;
`created_at` is filled by the server default at insert time. -/
structure Users where
  uid : UUID
  phone_number : String
  nickname : Option String
  avatar_url : Option String
  is_pro : Bool
  pro_expire_at : Option Nat
  current_energy : Int
  total_saved_bytes : Int
  total_deleted_count : Int
  last_login_at : Option Nat
  created_at : Option Nat
deriving Repr, DecidableEq

/-- A row of `sync_session_logs`.  `session_id` is the client-supplied
primary key; `uid` is a foreign key into `users`. -/
structure SyncSessionLogs where
  session_id : String
  uid : UUID
  mode : Int
  deleted_count : Int
  saved_bytes : Int
  start_time : Option Nat
  device_id : Option String
deriving Repr, DecidableEq

/-- A row of `sync_photo_actions` (the autoincrement `action_id` is assigned
by the store and plays no role in the claims, so rows are identified by
their payload and position in the table list). -/
structure SyncPhotoActions where
  uid : UUID
  photo_md5 : String
  action_type : Int
  action_source : String
deriving Repr, DecidableEq

/-- The relational store: the three tables the core touches.  Lists model
insertion order; constraints are enforced by the commit functions below. -/
structure DB where
  users : List Users
  session_logs : List SyncSessionLogs
  photo_actions : List SyncPhotoActions
deriving Repr, DecidableEq

/-!
## `app/schemas/sync.py` and `app/schemas/auth.py`
-/

/-- `PhotoActionSchema`: one element of the upload batch. -/
structure PhotoActionSchema where
  md5 : String
  action_type : Int
  action_source : String
deriving Repr, DecidableEq

/-- `SyncRequest`: the body of `POST /sync/upload`. -/
structure SyncRequest where
  session_id : String
  mode : Int
  actions : List PhotoActionSchema
deriving Repr, DecidableEq

/-- `SyncResponse`: the success body of `POST /sync/upload`. -/
structure SyncResponse where
  status : String
  synced_count : Nat
deriving Repr, DecidableEq

/-- `LoginRequest`: the body of `POST /auth/login`. -/
structure LoginRequest where
  phone : String
  code : String
deriving Repr, DecidableEq

/-!
## `app/api/v1/sync.py` — sync transaction processor
-/

/-- The outcome of `sync_upload`: a `SyncResponse`, or the `HTTPException`
raised in the `except` branch. -/
inductive SyncResult where
  | ok (resp : SyncResponse)
  | error (e : HTTPError)
deriving Repr, DecidableEq

/-- Whether the commit of the staged sync batch succeeds.  The store enforces
the primary-key uniqueness of `session_id` and the foreign key from both new
row kinds to `users`; `connOk` models external failure causes (connectivity
loss mid-transaction). -/
def syncCommitOk (db : DB) (uid : UUID) (body : SyncRequest) (connOk : Bool) :
    Bool :=
  connOk && db.session_logs.all (fun s => s.session_id != body.session_id)
         && db.users.any (fun u => u.uid == uid)

/-- The session-summary row staged by `sync_upload`: `deleted_count` is the
number of actions whose `action_type == 1`; the unsupplied columns take
their declared defaults. -/
def sessionLogRow (uid : UUID) (body : SyncRequest) : SyncSessionLogs :=
  { session_id := body.session_id
    uid := uid
    mode := body.mode
    deleted_count := ((body.actions.filter (fun a => a.action_type == 1)).length : Int)
    saved_bytes := 0
    start_time := none
    device_id := none }

/-- The per-action rows staged by `sync_upload`, one per input action. -/
def photoActionRows (uid : UUID) (body : SyncRequest) : List SyncPhotoActions :=
  body.actions.map (fun a =>
    { uid := uid
      photo_md5 := a.md5
      action_type := a.action_type
      action_source := a.action_source })

/-- `POST /sync/upload`: stage one session row plus one row per action, then
commit as a single atomic unit.  On any exception the transaction is rolled
back (the store is returned unchanged) and an `HTTPException(500)` is raised
whose detail is the retry message concatenated with `str(e)`; `excMsg` is
the oracle for `str(e)` of whatever exception the failed commit raised. -/
def sync_upload (db : DB) (uid : UUID) (body : SyncRequest) (connOk : Bool)
    (excMsg : String) : DB × SyncResult :=
  if syncCommitOk db uid body connOk then
    ({ db with
        session_logs := db.session_logs ++ [sessionLogRow uid body]
        photo_actions := db.photo_actions ++ photoActionRows uid body },
     .ok { status := "ok", synced_count := body.actions.length })
  else
    (db,
     .error { status := 500
              detail := "同步失败，请稍后重试: " ++ excMsg
              www_authenticate := none })

/-!
## `app/api/v1/auth.py` — login
-/

/-- The outcome of `POST /auth/login`: a token plus user payload, a raised
`HTTPException`, or an exception that propagates unhandled out of the route
(the route body has no `try`, so e.g. an `IntegrityError` from `db.commit()`
escapes and the framework answers 500). -/
inductive LoginResult where
  | ok (token : Token) (uid : UUID) (is_pro : Bool)
  | httpError (e : HTTPError)
  | unhandled (excMsg : String)
deriving Repr, DecidableEq

/-- The user row built by `Users(phone_number=..., last_login_at=now)`
together with the column defaults declared in `models/base.py`
(`is_pro=False`, `current_energy=50`, `total_saved_bytes=0`,
`total_deleted_count=0`) and the `created_at` server default. -/
def newUserRow (uid : UUID) (encrypted_phone : String) (now : Nat) : Users :=
  { uid := uid
    phone_number := encrypted_phone
    nickname := none
    avatar_url := none
    is_pro := false
    pro_expire_at := none
    current_energy := 50
    total_saved_bytes := 0
    total_deleted_count := 0
    last_login_at := some now
    created_at := some now }

/-- Committing an insert into `users`: enforces the uniqueness of
`phone_number` and of the primary key `uid`; `connOk` models external
failure causes.  `none` means the commit raised. -/
def usersInsertCommit (db : DB) (user : Users) (connOk : Bool) : Option DB :=
  if connOk && db.users.all (fun u => u.phone_number != user.phone_number)
            && db.users.all (fun u => u.uid != user.uid) then
    some { db with users := db.users ++ [user] }
  else none

/-- The lookup step of login:
`db.query(Users).filter(Users.phone_number == encrypted_phone).first()`. -/
def login_query (db : DB) (encrypted_phone : String) : Option Users :=
  db.users.find? (fun u => u.phone_number == encrypted_phone)

/-- The continuation of login after the lookup, on the store as it stands at
commit time: insert a fresh user (new-user branch) or update `last_login_at`
(returning-user branch), commit, then issue the token.  `newUid` is the
`uuid.uuid4()` the ORM default generates; `excMsg` is `str` of the exception
a failed commit raises, which propagates unhandled. -/
def login_resume (db : DB) (found : Option Users) (encrypted_phone : String)
    (now : Nat) (newUid : UUID) (connOk : Bool) (excMsg : String) :
    DB × LoginResult :=
  match found with
  | none =>
    let user := newUserRow newUid encrypted_phone now
    match usersInsertCommit db user connOk with
    | some db1 =>
      (db1, .ok (create_access_token (some (toString user.uid)) now none)
              user.uid user.is_pro)
    | none => (db, .unhandled excMsg)
  | some user =>
    let user1 := { user with last_login_at := some now }
    if connOk then
      ({ db with users := db.users.map (fun u => if u.uid == user.uid then user1 else u) },
       .ok (create_access_token (some (toString user1.uid)) now none)
         user1.uid user1.is_pro)
    else (db, .unhandled excMsg)

/-- `POST /auth/login`: reject a wrong code with 400 before touching the
store, otherwise encrypt the phone, look the user up and run the
lookup-or-create continuation. -/
def login (db : DB) (body : LoginRequest) (now : Nat) (newUid : UUID)
    (connOk : Bool) (excMsg : String) : DB × LoginResult :=
  if body.code ≠ "1234" then
    (db, .httpError { status := 400
                      detail := "验证码错误，请重新输入"
                      www_authenticate := none })
  else
    let encrypted_phone := encrypt_phone body.phone
    login_resume db (login_query db encrypted_phone) encrypted_phone
      now newUid connOk excMsg

/-- Interleaving of two concurrent logins with the same correct-code request
body: both lookups run against the same snapshot `db0` before either commit,
then request 1's continuation commits, then request 2's continuation runs
against the store request 1 left behind.  This is the schedule the spec's
race discussion is about. -/
def login_race (db0 : DB) (body : LoginRequest) (now1 now2 : Nat)
    (uid1 uid2 : UUID) (excMsg1 excMsg2 : String) :
    DB × LoginResult × LoginResult :=
  let p := encrypt_phone body.phone
  let found1 := login_query db0 p
  let found2 := login_query db0 p
  let step1 := login_resume db0 found1 p now1 uid1 true excMsg1
  let step2 := login_resume step1.1 found2 p now2 uid2 true excMsg2
  (step2.1, step1.2, step2.2)

/-!
## Concrete fixtures

States and requests used to instantiate the theorems below; they follow the
spec's worked scenario (login with phone `+8613800000000`, then upload
`session_id="s1"`, mode 1, one delete action and one keep action).
-/

/-- The empty store. -/
def emptyDB : DB := { users := [], session_logs := [], photo_actions := [] }

/-- A store holding the single user (uid 7) the scenario login creates. -/
def dbOneUser : DB :=
  { users := [newUserRow 7 (encrypt_phone "+8613800000000") 100]
    session_logs := []
    photo_actions := [] }

/-- The scenario batch: two actions, exactly one of which is a delete. -/
def bodyS1 : SyncRequest :=
  { session_id := "s1"
    mode := 1
    actions := [
      { md5 := "aaaaaaaaaaaaaaaaaaaaaaaaaaaaaaaa"
        action_type := 1
        action_source := "ANDROID" },
      { md5 := "bbbbbbbbbbbbbbbbbbbbbbbbbbbbbbbb"
        action_type := 0
        action_source := "IOS" } ] }

/-- The store after the scenario upload committed. -/
def dbAfterS1 : DB := (sync_upload dbOneUser 7 bodyS1 true "").1

/-- Decidable equality of `Except` results, so concrete runs of the gate can
be checked by `decide`. -/
instance decEqExcept {e a : Type} [DecidableEq e] [DecidableEq a] :
    DecidableEq (Except e a) := fun
  | .error x, .error y =>
    if h : x = y then .isTrue (by rw [h])
    else .isFalse (fun hc => h ((Except.error.injEq ..).mp hc))
  | .error _, .ok _ => .isFalse (fun hc => Except.noConfusion hc)
  | .ok _, .error _ => .isFalse (fun hc => Except.noConfusion hc)
  | .ok x, .ok y =>
    if h : x = y then .isTrue (by rw [h])
    else .isFalse (fun hc => h ((Except.ok.injEq ..).mp hc))

/-!
## Supporting lemmas

`str(uuid)` / `UUID(s)` are modelled by `toString : Nat → String` and
`String.toNat?`; the gate's correctness on well-formed tokens rests on the
round-trip `(toString uid).toNat? = some uid`, proved here from the fuel
recursion `Nat.toDigitsCore` underlying `Nat.repr`.
-/

theorem toDigitsCore_append (b : Nat) :
    ∀ (fuel n : Nat) (ds : List Char),
      Nat.toDigitsCore b fuel n ds = Nat.toDigitsCore b fuel n [] ++ ds := by
  intro fuel
  induction fuel with
  | zero => intro n ds; simp [Nat.toDigitsCore]
  | succ fuel ih =>
    intro n ds
    simp only [Nat.toDigitsCore]
    by_cases h : n / b = 0
    · simp [h]
    · simp only [h, if_false]
      rw [ih (n / b) (Nat.digitChar (n % b) :: ds),
          ih (n / b) [Nat.digitChar (n % b)], List.append_assoc]
      rfl

theorem toDigitsCore_ne_nil (b n : Nat) :
    ∀ fuel : Nat, 0 < fuel → Nat.toDigitsCore b fuel n [] ≠ [] := by
  intro fuel hf
  match fuel, hf with
  | fuel + 1, _ =>
    simp only [Nat.toDigitsCore]
    by_cases h : n / b = 0
    · simp [h]
    · simp only [h, if_false]
      rw [toDigitsCore_append]
      simp

theorem digitChar_isDigit (d : Nat) (h : d < 10) :
    (Nat.digitChar d).isDigit = true := by
  interval_cases d <;> decide

theorem digitChar_val (d : Nat) (h : d < 10) :
    (Nat.digitChar d).toNat - Char.toNat '0' = d := by
  interval_cases d <;> decide

theorem toDigitsCore_all_digits :
    ∀ (fuel n : Nat) (ds : List Char),
      (∀ c ∈ ds, c.isDigit = true) →
      ∀ c ∈ Nat.toDigitsCore 10 fuel n ds, c.isDigit = true := by
  intro fuel
  induction fuel with
  | zero => intro n ds hds; simpa [Nat.toDigitsCore] using hds
  | succ fuel ih =>
    intro n ds hds
    simp only [Nat.toDigitsCore]
    by_cases h : n / 10 = 0
    · simp only [h, if_true]
      intro c hc
      rcases List.mem_cons.mp hc with hc | hc
      · subst hc; exact digitChar_isDigit _ (Nat.mod_lt _ (by norm_num))
      · exact hds c hc
    · simp only [h, if_false]
      refine ih (n / 10) _ ?_
      intro c hc
      rcases List.mem_cons.mp hc with hc | hc
      · subst hc; exact digitChar_isDigit _ (Nat.mod_lt _ (by norm_num))
      · exact hds c hc

theorem toDigitsCore_foldl :
    ∀ fuel n a : Nat, n < 10 ^ fuel →
      List.foldl (fun m c => m * 10 + (c.toNat - Char.toNat '0')) a
          (Nat.toDigitsCore 10 fuel n []) =
        a * 10 ^ (Nat.toDigitsCore 10 fuel n []).length + n := by
  intro fuel
  induction fuel with
  | zero =>
    intro n a hn
    interval_cases n
    simp [Nat.toDigitsCore]
  | succ fuel ih =>
    intro n a hn
    simp only [Nat.toDigitsCore]
    by_cases h : n / 10 = 0
    · have hn10 : n < 10 := (Nat.div_eq_zero_iff (by norm_num)).mp h
      simp only [h, if_true, List.foldl_cons, List.foldl_nil, List.length_cons,
        List.length_nil]
      rw [Nat.mod_eq_of_lt hn10, digitChar_val n hn10]
      ring
    · simp only [h, if_false]
      rw [toDigitsCore_append]
      have hdiv : n / 10 < 10 ^ fuel := by
        rw [Nat.div_lt_iff_lt_mul (by norm_num : (0:ℕ) < 10)]
        calc n < 10 ^ (fuel + 1) := hn
        _ = 10 ^ fuel * 10 := by ring
      rw [List.foldl_append, ih (n / 10) a hdiv]
      simp only [List.foldl_cons, List.foldl_nil, List.length_append,
        List.length_cons, List.length_nil]
      rw [digitChar_val (n % 10) (Nat.mod_lt _ (by norm_num))]
      have := Nat.div_add_mod n 10
      ring_nf
      omega

theorem UUID_parse_eq_toNat (s : String) : UUID_parse s = String.toNat? s := by
  unfold UUID_parse String.toNat? String.isNat
  rw [String.foldl_eq, String.all_eq]
  have hiff : s.isEmpty = true ↔ s.data = [] := by
    rw [String.isEmpty_iff]
    exact ⟨fun h => congrArg String.data h, fun h => String.ext h⟩
  by_cases hd : s.data = []
  · rw [if_neg (fun hc => hc.1 hd), if_neg (by simp [hiff.mpr hd])]
  · have hemp : s.isEmpty = false := by
      cases h : s.isEmpty
      · rfl
      · exact absurd (hiff.mp h) hd
    by_cases ha : s.data.all Char.isDigit = true
    · rw [if_pos ⟨hd, ha⟩, if_pos (by simp [hemp, ha])]
      rfl
    · rw [if_neg (fun hc => ha hc.2), if_neg (by simp [hemp, ha])]

theorem UUID_parse_asString_digits (l : List Char) (hne : l ≠ [])
    (hdig : ∀ c ∈ l, c.isDigit = true) :
    UUID_parse l.asString =
      some (List.foldl (fun m c => m * 10 + (c.toNat - Char.toNat '0')) 0 l) := by
  have hdata : (List.asString l).toList = l := rfl
  unfold UUID_parse
  rw [if_pos ⟨by simpa [hdata] using hne, by
        rw [hdata]; exact List.all_eq_true.mpr hdig⟩, hdata]

theorem UUID_parse_repr (n : Nat) : UUID_parse (Nat.repr n) = some n := by
  have hlt : n < 10 ^ (n + 1) :=
    lt_of_lt_of_le (Nat.lt_pow_self (by norm_num) n)
      (Nat.pow_le_pow_right (by norm_num) (Nat.le_succ n))
  have hne := toDigitsCore_ne_nil 10 n (n + 1) (Nat.succ_pos n)
  have hdig := toDigitsCore_all_digits (n + 1) n [] (by simp)
  show UUID_parse (Nat.toDigitsCore 10 (n + 1) n []).asString = some n
  rw [UUID_parse_asString_digits _ hne hdig, toDigitsCore_foldl (n + 1) n 0 hlt]
  simp

theorem UUID_parse_toString (n : Nat) : UUID_parse (toString n) = some n :=
  UUID_parse_repr n

theorem get_current_user_error_unique (tok : Token) (now : Nat) (e : HTTPError)
    (h : get_current_user tok now = .error e) : e = credentials_exception := by
  unfold get_current_user at h
  split at h
  · exact (Except.error.injEq .. ▸ h).symm
  · exact (Except.error.injEq .. ▸ h).symm
  · split at h
    · exact (Except.error.injEq .. ▸ h).symm
    · exact absurd h (by simp)

/-!
## Claims about the sync transaction processor
-/

/-- C1: for every sync-upload call, if any failure occurs during staging or
commit (constraint violation, connectivity loss, duplicate session_id), the
entire batch is rolled back — afterward the store is exactly as before, so
zero session rows and zero action rows from the batch are persisted — and
the processor reports a single generic SyncFailed server (500) error;
otherwise the call succeeds with the complete batch committed.  Partial
persistence of some actions without the session row, or vice versa, never
occurs. -/
theorem sync_upload_atomicity (db : DB) (uid : UUID) (body : SyncRequest)
    (connOk : Bool) (excMsg : String) :
    (∃ resp, sync_upload db uid body connOk excMsg =
        ({ db with
            session_logs := db.session_logs ++ [sessionLogRow uid body]
            photo_actions := db.photo_actions ++ photoActionRows uid body },
          .ok resp))
    ∨ sync_upload db uid body connOk excMsg =
        (db, .error { status := 500
                      detail := "同步失败，请稍后重试: " ++ excMsg
                      www_authenticate := none }) := by
  unfold sync_upload
  by_cases h : syncCommitOk db uid body connOk = true
  · exact Or.inl ⟨_, by rw [if_pos h]⟩
  · exact Or.inr (by rw [if_neg h])

/-- C2: for every sync-upload batch of size N, a successful call inserts
exactly one SyncSession row and exactly N PhotoAction rows — one per input
action, carrying the authenticated user id, the action's fingerprint,
action_type and source — and returns synced_count = N. -/
theorem sync_upload_success_shape (db : DB) (uid : UUID) (body : SyncRequest)
    (connOk : Bool) (excMsg : String) (db1 : DB) (resp : SyncResponse)
    (h : sync_upload db uid body connOk excMsg = (db1, .ok resp)) :
    db1.users = db.users ∧
    db1.session_logs = db.session_logs ++ [sessionLogRow uid body] ∧
    db1.session_logs.length = db.session_logs.length + 1 ∧
    db1.photo_actions = db.photo_actions ++
      body.actions.map (fun a =>
        ({ uid := uid
           photo_md5 := a.md5
           action_type := a.action_type
           action_source := a.action_source } : SyncPhotoActions)) ∧
    db1.photo_actions.length = db.photo_actions.length + body.actions.length ∧
    resp.status = "ok" ∧
    resp.synced_count = body.actions.length := by
  unfold sync_upload at h
  by_cases hc : syncCommitOk db uid body connOk = true
  · rw [if_pos hc] at h
    simp only [Prod.mk.injEq, SyncResult.ok.injEq] at h
    obtain ⟨hdb, hresp⟩ := h
    subst hdb; subst hresp
    refine ⟨rfl, rfl, by simp, rfl, by simp [photoActionRows], rfl, rfl⟩
  · rw [if_neg hc] at h
    exact absurd (congrArg Prod.snd h) (by simp)

/-- C2 witness: the scenario batch of size 2 against a one-user store. -/
theorem sync_upload_success_shape_witness :
    sync_upload dbOneUser 7 bodyS1 true "" =
      (dbAfterS1, .ok { status := "ok", synced_count := 2 }) ∧
    (dbAfterS1.users = dbOneUser.users ∧
     dbAfterS1.session_logs = dbOneUser.session_logs ++ [sessionLogRow 7 bodyS1] ∧
     dbAfterS1.session_logs.length = dbOneUser.session_logs.length + 1 ∧
     dbAfterS1.photo_actions = dbOneUser.photo_actions ++
       bodyS1.actions.map (fun a =>
         ({ uid := 7
            photo_md5 := a.md5
            action_type := a.action_type
            action_source := a.action_source } : SyncPhotoActions)) ∧
     dbAfterS1.photo_actions.length =
       dbOneUser.photo_actions.length + bodyS1.actions.length ∧
     ({ status := "ok", synced_count := 2 } : SyncResponse).status = "ok" ∧
     ({ status := "ok", synced_count := 2 } : SyncResponse).synced_count =
       bodyS1.actions.length) :=
  ⟨by decide,
   sync_upload_success_shape dbOneUser 7 bodyS1 true "" dbAfterS1
     { status := "ok", synced_count := 2 } (by decide)⟩

/-- C3: for every sync-upload batch, regardless of the mix of action types,
the deleted_count stored on the session row equals the number of actions in
the batch whose action_type equals the reserved delete code 1. -/
theorem sync_upload_session_deleted_count (db : DB) (uid : UUID)
    (body : SyncRequest) (connOk : Bool) (excMsg : String) (db1 : DB)
    (resp : SyncResponse)
    (h : sync_upload db uid body connOk excMsg = (db1, .ok resp)) :
    ∃ row : SyncSessionLogs,
      db1.session_logs = db.session_logs ++ [row] ∧
      row.session_id = body.session_id ∧
      row.deleted_count =
        (body.actions.countP (fun a => a.action_type == 1) : Int) := by
  unfold sync_upload at h
  by_cases hc : syncCommitOk db uid body connOk = true
  · rw [if_pos hc] at h
    simp only [Prod.mk.injEq, SyncResult.ok.injEq] at h
    obtain ⟨hdb, -⟩ := h
    subst hdb
    refine ⟨sessionLogRow uid body, rfl, rfl, ?_⟩
    simp [sessionLogRow, List.countP_eq_length_filter]
  · rw [if_neg hc] at h
    exact absurd (congrArg Prod.snd h) (by simp)

/-- C3 witness: the scenario batch (one delete, one keep) stores
deleted_count = 1. -/
theorem sync_upload_session_deleted_count_witness :
    sync_upload dbOneUser 7 bodyS1 true "" =
      (dbAfterS1, .ok { status := "ok", synced_count := 2 }) ∧
    ∃ row : SyncSessionLogs,
      dbAfterS1.session_logs = dbOneUser.session_logs ++ [row] ∧
      row.session_id = bodyS1.session_id ∧
      row.deleted_count =
        (bodyS1.actions.countP (fun a => a.action_type == 1) : Int) :=
  ⟨by decide,
   sync_upload_session_deleted_count dbOneUser 7 bodyS1 true "" dbAfterS1
     { status := "ok", synced_count := 2 } (by decide)⟩

/-- C4: re-submitting a batch whose session_id was already committed by a
prior successful sync-upload fails closed with the SyncFailed 500 error —
the primary-key uniqueness of session_id rejects the commit — and leaves
the store, in particular the original session row, unchanged. -/
theorem sync_upload_duplicate_session_id (db0 db1 : DB) (uid1 uid2 : UUID)
    (body1 body2 : SyncRequest) (c1 : Bool) (m1 : String) (resp : SyncResponse)
    (hfirst : sync_upload db0 uid1 body1 c1 m1 = (db1, .ok resp))
    (hsame : body2.session_id = body1.session_id)
    (connOk : Bool) (excMsg : String) :
    sync_upload db1 uid2 body2 connOk excMsg =
      (db1, .error { status := 500
                     detail := "同步失败，请稍后重试: " ++ excMsg
                     www_authenticate := none }) := by
  unfold sync_upload at hfirst
  by_cases hc : syncCommitOk db0 uid1 body1 c1 = true
  · rw [if_pos hc] at hfirst
    simp only [Prod.mk.injEq, SyncResult.ok.injEq] at hfirst
    obtain ⟨hdb, -⟩ := hfirst
    have hmem : sessionLogRow uid1 body1 ∈ db1.session_logs := by
      rw [← hdb]; simp
    have hall :
        db1.session_logs.all (fun s => s.session_id != body2.session_id) = false := by
      rw [List.all_eq_false]
      exact ⟨sessionLogRow uid1 body1, hmem, by simp [sessionLogRow, hsame]⟩
    have hcommit : syncCommitOk db1 uid2 body2 connOk = false := by
      simp [syncCommitOk, hall]
    unfold sync_upload
    rw [if_neg (by simp [hcommit])]
  · rw [if_neg hc] at hfirst
    exact absurd (congrArg Prod.snd hfirst) (by simp)

/-- C4 witness: replaying the scenario upload with the same session_id "s1"
fails with the 500 SyncFailed error and the store stays `dbAfterS1`. -/
theorem sync_upload_duplicate_session_id_witness :
    sync_upload dbOneUser 7 bodyS1 true "" =
      (dbAfterS1, .ok { status := "ok", synced_count := 2 }) ∧
    sync_upload dbAfterS1 7 bodyS1 true "IntegrityError: duplicate key" =
      (dbAfterS1, .error { status := 500
                           detail := "同步失败，请稍后重试: IntegrityError: duplicate key"
                           www_authenticate := none }) :=
  ⟨by decide,
   sync_upload_duplicate_session_id dbOneUser dbAfterS1 7 7 bodyS1 bodyS1 true ""
     { status := "ok", synced_count := 2 } (by decide) rfl true
     "IntegrityError: duplicate key"⟩

/-!
## Claims about the token codec and the authentication gate
-/

/-- C5 counterexample: the claim says verification fails at or after the
embedded expiry, but a token whose expiry is second 60 still verifies at
second 60 — python-jose only rejects strictly after the expiry second. -/
theorem token_valid_at_expiry_instant :
    (create_access_token (some (toString 7)) 0 (some 60)).exp = 60 ∧
    get_current_user (create_access_token (some (toString 7)) 0 (some 60)) 60 =
      .ok 7 := by decide

/-- C5 (amended): for every token issued by the codec for a user id, the
embedded expiry is issue-time + t for a nonzero TTL t, and issue-time + the
configuration default both when no TTL is supplied and when a zero TTL is
supplied (Python's `if expires_delta:` is falsy for `timedelta(0)`);
verification succeeds and returns that user id at any time up to and
including the embedded expiry second, and fails with the Unauthorized
credentials error strictly after it. -/
theorem token_lifecycle (uid now0 now : Nat) (ttl : Option Nat) :
    (∀ t : Nat, ttl = some t → t ≠ 0 →
      (create_access_token (some (toString uid)) now0 ttl).exp = now0 + t) ∧
    (ttl = none ∨ ttl = some 0 →
      (create_access_token (some (toString uid)) now0 ttl).exp =
        now0 + settings.ACCESS_TOKEN_EXPIRE_MINUTES * 60) ∧
    (now ≤ (create_access_token (some (toString uid)) now0 ttl).exp →
      get_current_user (create_access_token (some (toString uid)) now0 ttl) now =
        .ok uid) ∧
    ((create_access_token (some (toString uid)) now0 ttl).exp < now →
      get_current_user (create_access_token (some (toString uid)) now0 ttl) now =
        .error credentials_exception) := by
  refine ⟨?_, ?_, ?_, ?_⟩
  · intro t ht htz
    subst ht
    simp [create_access_token, timedeltaTruthy, htz]
  · rintro (ht | ht) <;> subst ht <;>
      simp [create_access_token, timedeltaTruthy]
  · intro hle
    unfold get_current_user jwt_decode
    rw [if_neg (by simp [create_access_token, settings])]
    rw [if_neg (by omega)]
    simp [create_access_token, UUID_parse_toString]
  · intro hlt
    unfold get_current_user jwt_decode
    rw [if_neg (by simp [create_access_token, settings])]
    rw [if_pos hlt]

/-- C5 witness: a token for uid 9 with TTL 60 issued at time 0 has expiry
60, verifies at time 60 and is rejected at time 61; with no TTL, or with the
falsy TTL 0, the expiry is the configuration default. -/
theorem token_lifecycle_witness :
    (create_access_token (some (toString 9)) 0 (some 60)).exp = 0 + 60 ∧
    (create_access_token (some (toString 9)) 0 none).exp =
      0 + settings.ACCESS_TOKEN_EXPIRE_MINUTES * 60 ∧
    (create_access_token (some (toString 9)) 0 (some 0)).exp =
      0 + settings.ACCESS_TOKEN_EXPIRE_MINUTES * 60 ∧
    (60 ≤ (create_access_token (some (toString 9)) 0 (some 60)).exp ∧
      get_current_user (create_access_token (some (toString 9)) 0 (some 60)) 60 =
        .ok 9) ∧
    ((create_access_token (some (toString 9)) 0 (some 60)).exp < 61 ∧
      get_current_user (create_access_token (some (toString 9)) 0 (some 60)) 61 =
        .error credentials_exception) :=
  ⟨(token_lifecycle 9 0 0 (some 60)).1 60 rfl (by decide),
   (token_lifecycle 9 0 0 none).2.1 (Or.inl rfl),
   (token_lifecycle 9 0 0 (some 0)).2.1 (Or.inr rfl),
   ⟨by decide, (token_lifecycle 9 0 60 (some 60)).2.2.1 (by decide)⟩,
   ⟨by decide, (token_lifecycle 9 0 61 (some 60)).2.2.2 (by decide)⟩⟩

/-- C6 counterexample: two failing authentication attempts do not produce
the same response — a missing header yields the bearer-extraction error
(detail "Not authenticated") while an expired token yields the codec error
(detail "无法验证身份凭证，请重新登录"), so the caller can tell these root
causes apart. -/
theorem auth_failure_responses_differ :
    authenticate .missing 0 = .error notAuthenticatedError ∧
    authenticate (.header "Bearer"
        { sub := some (toString 7), exp := 60, key := settings.SECRET_KEY }) 61 =
      .error credentials_exception ∧
    authenticate (.header "Token"
        { sub := some (toString 7), exp := 100, key := settings.SECRET_KEY }) 0 =
      .error notAuthenticatedError ∧
    notAuthenticatedError ≠ credentials_exception := by
  refine ⟨by decide, by decide, by decide, by decide⟩

/-- C6 (amended): every failing authentication attempt yields a 401 response
with a WWW-Authenticate Bearer header, and the response is one of exactly
two values — the extraction error for a missing header or non-bearer
scheme, and the single codec error shared by every token-verification
failure (tampered signature, expiry, missing or malformed subject) — so
root causes within each class are indistinguishable, but the two classes
differ in their detail text. -/
theorem auth_failures_status_uniform (h : AuthHeader) (now : Nat)
    (e : HTTPError) (hfail : authenticate h now = .error e) :
    e.status = 401 ∧ e.www_authenticate = some "Bearer" ∧
    (e = notAuthenticatedError ∨ e = credentials_exception) := by
  have hcases : e = notAuthenticatedError ∨ e = credentials_exception := by
    cases h with
    | missing =>
      left
      simpa [authenticate, oauth2_scheme] using hfail.symm
    | header scheme tok =>
      unfold authenticate at hfail
      simp only [oauth2_scheme] at hfail
      by_cases hs : schemeLower scheme = "bearer"
      · rw [if_pos hs] at hfail
        exact Or.inr (get_current_user_error_unique tok now e hfail)
      · rw [if_neg hs] at hfail
        left
        simpa using hfail.symm
  rcases hcases with h1 | h1 <;> subst h1 <;> exact ⟨rfl, rfl, by simp⟩

/-- C6 witness: the missing-header failure carries status 401 and the
Bearer challenge header. -/
theorem auth_failures_status_uniform_witness :
    authenticate .missing 5 = .error notAuthenticatedError ∧
    (notAuthenticatedError.status = 401 ∧
     notAuthenticatedError.www_authenticate = some "Bearer" ∧
     (notAuthenticatedError = notAuthenticatedError ∨
      notAuthenticatedError = credentials_exception)) :=
  ⟨by decide,
   auth_failures_status_uniform .missing 5 notAuthenticatedError (by decide)⟩

/-- C7 counterexample: the claim says the SyncFailed message does not leak
raw persistence-layer error text, but the route appends `str(e)` verbatim:
on a duplicate-key failure the client-visible detail embeds the raw driver
message. -/
theorem sync_error_detail_leaks_raw_message :
    (sync_upload dbAfterS1 7 bodyS1 true
        "(psycopg2.errors.UniqueViolation) duplicate key value violates unique constraint").2 =
      SyncResult.error
        { status := 500
          detail := "同步失败，请稍后重试: " ++
            "(psycopg2.errors.UniqueViolation) duplicate key value violates unique constraint"
          www_authenticate := none } := by decide

/-- C7 (amended): every sync-upload failure is reported as a server (500)
error after full rollback, and its message is the fixed retry prefix
concatenated with the raised exception's own message text — no stack trace,
but the raw exception text (for persistence failures, the raw
persistence-layer error message) is included verbatim. -/
theorem sync_error_detail_shape (db : DB) (uid : UUID) (body : SyncRequest)
    (connOk : Bool) (excMsg : String) (db1 : DB) (e : HTTPError)
    (h : sync_upload db uid body connOk excMsg = (db1, .error e)) :
    db1 = db ∧ e.status = 500 ∧ e.www_authenticate = none ∧
    e.detail = "同步失败，请稍后重试: " ++ excMsg := by
  unfold sync_upload at h
  by_cases hc : syncCommitOk db uid body connOk = true
  · rw [if_pos hc] at h
    exact absurd (congrArg Prod.snd h) (by simp)
  · rw [if_neg hc] at h
    simp only [Prod.mk.injEq, SyncResult.error.injEq] at h
    obtain ⟨h1, h2⟩ := h
    subst h1; subst h2
    exact ⟨rfl, rfl, rfl, rfl⟩

/-- C7 witness: a connectivity failure surfaces as the 500 error whose
detail is the retry prefix plus the exception message. -/
theorem sync_error_detail_shape_witness :
    sync_upload dbOneUser 7 bodyS1 false "connection reset by peer" =
      (dbOneUser,
       .error { status := 500
                detail := "同步失败，请稍后重试: connection reset by peer"
                www_authenticate := none }) ∧
    ("同步失败，请稍后重试: connection reset by peer" : String) =
      "同步失败，请稍后重试: " ++ "connection reset by peer" :=
  ⟨by decide,
   (sync_error_detail_shape dbOneUser 7 bodyS1 false "connection reset by peer"
      dbOneUser
      { status := 500
        detail := "同步失败，请稍后重试: connection reset by peer"
        www_authenticate := none } (by decide)).2.2.2⟩

/-!
## Claims about login
-/

/-- C8 counterexample: in the interleaved double login the losing request is
answered with the unhandled propagated IntegrityError — the route has no
handler that retries the insert as a lookup of the existing user — even
though only one user row exists afterwards. -/
theorem login_race_second_login_unhandled :
    (login_race emptyDB { phone := "+8613800000000", code := "1234" }
        100 101 7 8 "e1" "IntegrityError: duplicate key value").2.2 =
      .unhandled "IntegrityError: duplicate key value" ∧
    (login_race emptyDB { phone := "+8613800000000", code := "1234" }
        100 101 7 8 "e1" "IntegrityError: duplicate key value").1.users.length = 1 := by
  decide

/-- C8 (amended): under two concurrent first-contact logins with the same
phone, at most one user row ever exists for that phone — the store's
uniqueness constraint rejects the second insert — but the code does not
treat the violation as a signal to retry as a lookup: the first request
gets the new user, the second fails with an unhandled propagated error
instead of the existing user. -/
theorem login_race_unique_row_no_retry (db0 : DB) (body : LoginRequest)
    (now1 now2 : Nat) (uid1 uid2 : UUID) (m1 m2 : String)
    (hnouser : login_query db0 (encrypt_phone body.phone) = none)
    (huid1 : ∀ u ∈ db0.users, u.uid ≠ uid1) :
    (login_race db0 body now1 now2 uid1 uid2 m1 m2).1.users.countP
        (fun u => u.phone_number == encrypt_phone body.phone) = 1 ∧
    (login_race db0 body now1 now2 uid1 uid2 m1 m2).2.1 =
      .ok (create_access_token (some (toString uid1)) now1 none) uid1 false ∧
    (login_race db0 body now1 now2 uid1 uid2 m1 m2).2.2 = .unhandled m2 := by
  have hphoneAll :
      db0.users.all
        (fun u => u.phone_number != encrypt_phone body.phone) = true := by
    rw [List.all_eq_true]
    intro u hu
    have := List.find?_eq_none.mp hnouser u hu
    simpa [bne] using this
  have huidAll : db0.users.all (fun u => u.uid != uid1) = true := by
    rw [List.all_eq_true]
    intro u hu
    simpa [bne] using huid1 u hu
  have hcommit1 :
      usersInsertCommit db0
        (newUserRow uid1 (encrypt_phone body.phone) now1) true =
      some { db0 with
              users := db0.users ++
                [newUserRow uid1 (encrypt_phone body.phone) now1] } := by
    unfold usersInsertCommit
    rw [if_pos (by simp [newUserRow, hphoneAll, huidAll])]
  have hcommit2 :
      usersInsertCommit
        { db0 with
           users := db0.users ++
             [newUserRow uid1 (encrypt_phone body.phone) now1] }
        (newUserRow uid2 (encrypt_phone body.phone) now2) true = none := by
    unfold usersInsertCommit
    rw [if_neg]
    intro hc
    simp only [Bool.and_eq_true, true_and] at hc
    obtain ⟨hA, -⟩ := hc
    rw [List.all_eq_true] at hA
    have hu1 := hA (newUserRow uid1 (encrypt_phone body.phone) now1) (by simp)
    simp [newUserRow] at hu1
  have hcount0 :
      db0.users.countP
        (fun u => u.phone_number == encrypt_phone body.phone) = 0 := by
    rw [List.countP_eq_zero]
    intro u hu
    exact List.find?_eq_none.mp hnouser u hu
  unfold login_race
  simp only [hnouser]
  unfold login_resume
  simp only [hcommit1, hcommit2]
  refine ⟨?_, rfl, trivial⟩
  simp [List.countP_append, hcount0, newUserRow]

/-- C8 witness: the race on the empty store from the scenario phone. -/
theorem login_race_unique_row_no_retry_witness :
    (login_query emptyDB (encrypt_phone "+8613800000000") = none ∧
     ∀ u ∈ emptyDB.users, u.uid ≠ 7) ∧
    ((login_race emptyDB { phone := "+8613800000000", code := "1234" }
        100 101 7 8 "m1" "m2").1.users.countP
          (fun u => u.phone_number == encrypt_phone "+8613800000000") = 1 ∧
     (login_race emptyDB { phone := "+8613800000000", code := "1234" }
        100 101 7 8 "m1" "m2").2.1 =
       .ok (create_access_token (some (toString 7)) 100 none) 7 false ∧
     (login_race emptyDB { phone := "+8613800000000", code := "1234" }
        100 101 7 8 "m1" "m2").2.2 = .unhandled "m2") :=
  ⟨⟨by decide, by decide⟩,
   login_race_unique_row_no_retry emptyDB
     { phone := "+8613800000000", code := "1234" } 100 101 7 8 "m1" "m2"
     (by decide) (by decide)⟩

/-- C9: every login request whose verification code differs from the
expected "1234" fails with the 400 client error and leaves the store
untouched — in particular no user row is created even for a never-seen
phone. -/
theorem login_wrong_code_rejected (db : DB) (body : LoginRequest) (now : Nat)
    (newUid : UUID) (connOk : Bool) (excMsg : String)
    (h : body.code ≠ "1234") :
    login db body now newUid connOk excMsg =
      (db, .httpError { status := 400
                        detail := "验证码错误，请重新输入"
                        www_authenticate := none }) := by
  unfold login
  rw [if_pos h]

/-- C9 witness: the spec scenario — code "0000" on a fresh phone gives 400
and the store stays empty. -/
theorem login_wrong_code_rejected_witness :
    (("0000" : String) ≠ "1234") ∧
    login emptyDB { phone := "+8613800000000", code := "0000" } 100 7 true "" =
      (emptyDB, .httpError { status := 400
                             detail := "验证码错误，请重新输入"
                             www_authenticate := none }) :=
  ⟨by decide,
   login_wrong_code_rejected emptyDB
     { phone := "+8613800000000", code := "0000" } 100 7 true "" (by decide)⟩

/-- C10: every user created by a first-time successful login is initialized
with is_pro = false, current_energy = 50, total_saved_bytes = 0,
total_deleted_count = 0, and last-seen (last_login_at) set to the current
time; exactly one row is appended and the response reports the new uid with
is_pro = false. -/
theorem login_first_time_user_defaults (db : DB) (body : LoginRequest)
    (now : Nat) (newUid : UUID) (connOk : Bool) (excMsg : String)
    (db1 : DB) (tok : Token) (uidr : UUID) (ip : Bool)
    (hcode : body.code = "1234")
    (hnew : login_query db (encrypt_phone body.phone) = none)
    (h : login db body now newUid connOk excMsg = (db1, .ok tok uidr ip)) :
    ∃ u : Users,
      db1.users = db.users ++ [u] ∧
      u.uid = newUid ∧
      u.phone_number = encrypt_phone body.phone ∧
      u.is_pro = false ∧
      u.current_energy = 50 ∧
      u.total_saved_bytes = 0 ∧
      u.total_deleted_count = 0 ∧
      u.last_login_at = some now ∧
      uidr = newUid ∧ ip = false := by
  have hlogin : login db body now newUid connOk excMsg =
      login_resume db none (encrypt_phone body.phone) now newUid connOk excMsg := by
    unfold login
    rw [if_neg (by simp [hcode])]
    simp only [hnew]
  rw [hlogin] at h
  unfold login_resume at h
  cases hcommit : usersInsertCommit db
      (newUserRow newUid (encrypt_phone body.phone) now) connOk with
  | none =>
    simp only [hcommit] at h
    exact absurd (congrArg Prod.snd h) (by simp)
  | some db2 =>
    simp only [hcommit] at h
    unfold usersInsertCommit at hcommit
    by_cases hcond : (connOk &&
        db.users.all (fun u => u.phone_number !=
          (newUserRow newUid (encrypt_phone body.phone) now).phone_number) &&
        db.users.all (fun u => u.uid !=
          (newUserRow newUid (encrypt_phone body.phone) now).uid)) = true
    · rw [if_pos hcond] at hcommit
      simp only [Option.some.injEq] at hcommit
      simp only [Prod.mk.injEq, LoginResult.ok.injEq] at h
      obtain ⟨hdb, -, huid, hip⟩ := h
      refine ⟨newUserRow newUid (encrypt_phone body.phone) now, ?_,
        rfl, rfl, rfl, rfl, rfl, rfl, rfl, huid.symm, hip.symm⟩
      rw [← hdb, ← hcommit]
    · rw [if_neg hcond] at hcommit
      exact Option.noConfusion hcommit

/-- C10 witness: the scenario first-time login creates uid 7 with the
default quota and counters. -/
theorem login_first_time_user_defaults_witness :
    (({ phone := "+8613800000000", code := "1234" } : LoginRequest).code = "1234" ∧
     login_query emptyDB (encrypt_phone "+8613800000000") = none ∧
     login emptyDB { phone := "+8613800000000", code := "1234" } 100 7 true "" =
       (dbOneUser, .ok (create_access_token (some (toString 7)) 100 none) 7 false)) ∧
    ∃ u : Users,
      dbOneUser.users = emptyDB.users ++ [u] ∧
      u.uid = 7 ∧
      u.phone_number = encrypt_phone "+8613800000000" ∧
      u.is_pro = false ∧
      u.current_energy = 50 ∧
      u.total_saved_bytes = 0 ∧
      u.total_deleted_count = 0 ∧
      u.last_login_at = some 100 ∧
      (7 : UUID) = 7 ∧ false = false :=
  ⟨⟨rfl, by decide, by decide⟩,
   login_first_time_user_defaults emptyDB
     { phone := "+8613800000000", code := "1234" } 100 7 true "" dbOneUser
     (create_access_token (some (toString 7)) 100 none) 7 false rfl
     (by decide) (by decide)⟩

end CozyClean
